import Mathlib

/-!
Verification of the TicTacToe backend (Fastify + Drizzle, TypeScript) against
its natural-language specification.  The routes in `src/routes/games.ts`,
`src/routes/friends.ts` and the realtime plugin in `src/plugins` are embedded
shallowly: the database is a record of row lists, every handler is a pure
function from the database and the request data to a result record holding the
new database, the HTTP reply and the notifications that were emitted.
-/

/-- A user row (`user` table): only the fields the handlers read. -/
structure User where
  id : Nat
  username : String
deriving Repr, DecidableEq

/-- A game row (`game` table). `boardState` is the 9-character board string,
each cell `'-'`, `'X'` or `'O'`; `playerTurn` is `'X'` or `'O'`; `status` is
one of `"ACTIVE"`, `"FINISHED"`, `"DRAW"`. -/
structure Game where
  id : Nat
  playerXId : Nat
  playerOId : Nat
  chatId : Option Nat
  boardState : List Char
  playerTurn : Char
  status : String
  winnerId : Option Nat
deriving Repr, DecidableEq

/-- A chat row (`chat` table). -/
structure Chat where
  id : Nat
  user1Id : Nat
  user2Id : Nat
deriving Repr, DecidableEq

/-- A message row (`message` table). -/
structure Message where
  id : Nat
  chatId : Nat
  senderId : Nat
  content : String
deriving Repr, DecidableEq

/-- A game-invitation row (`game_invitation` table). -/
structure GameInvitation where
  id : Nat
  senderId : Nat
  receiverId : Nat
  status : String
deriving Repr, DecidableEq

/-- A friendship row (`friendship` table): one directed row per undirected edge. -/
structure Friendship where
  id : Nat
  userId : Nat
  friendId : Nat
deriving Repr, DecidableEq

/-- A friend-request row (`friend_request` table). -/
structure FriendRequest where
  id : Nat
  senderId : Nat
  receiverId : Nat
  status : String
deriving Repr, DecidableEq

/-- The relational state the handlers read and write.  The `next*` counters
model the `serial` primary keys produced by `insert ... returning id`. -/
structure DB where
  users : List User
  games : List Game
  chats : List Chat
  messages : List Message
  gameInvitations : List GameInvitation
  friendships : List Friendship
  friendRequests : List FriendRequest
  nextChatId : Nat
  nextGameId : Nat
  nextMessageId : Nat
  nextInvitationId : Nat
deriving Repr, DecidableEq

/-- One `notifyUser(userId, event, ...)` call made by a handler.  `isMine`
records the `isMine` tag of a `chat_message` payload (`none` for events whose
payload carries no such tag). -/
structure Notification where
  userId : Nat
  event : String
  isMine : Option Bool
deriving Repr, DecidableEq

/-- `rows[0]` of a drizzle `select().where(p)`: the first row satisfying `p`. -/
def firstRow {α : Type} (l : List α) (p : α → Bool) : Option α :=
  (l.filter p).head?

/-- JavaScript `String.prototype.trim()`: strip leading and trailing
whitespace. -/
def jsTrim (s : String) : String :=
  ⟨((s.data.dropWhile Char.isWhitespace).reverse.dropWhile
      Char.isWhitespace).reverse⟩

/-- JavaScript `String.prototype.slice(0, n)`: the first `n` characters. -/
def jsSlice (s : String) (n : Nat) : String :=
  ⟨s.data.take n⟩

/-- `INITIAL_BOARD = '---------'` from `games.ts`. -/
def INITIAL_BOARD : List Char :=
  ['-', '-', '-', '-', '-', '-', '-', '-', '-']

/-- `LINES` from `games.ts`: the three rows, three columns and two diagonals. -/
def LINES : List (Nat × Nat × Nat) :=
  [(0, 1, 2), (3, 4, 5), (6, 7, 8),
   (0, 3, 6), (1, 4, 7), (2, 5, 8),
   (0, 4, 8), (2, 4, 6)]

/-- `checkWinner(board, symbol)` from `games.ts`: some line holds the symbol
three times. -/
def checkWinner (board : List Char) (symbol : Char) : Bool :=
  LINES.any fun l =>
    board[l.1]? == some symbol && board[l.2.1]? == some symbol &&
      board[l.2.2]? == some symbol

/-- `isDraw(board)` from `games.ts`: the board holds no `'-'`. -/
def isDraw (board : List Char) : Bool :=
  !(board.contains '-')

/-- `deleteGameChat(chatId, gameId)` from `games.ts`: if the game has a chat,
clear the game's `chatId`, delete the chat's messages and delete the chat row. -/
def deleteGameChat (db : DB) (chatId : Option Nat) (gameId : Nat) : DB :=
  match chatId with
  | none => db
  | some cid =>
    { db with
      games := db.games.map fun g =>
        if g.id == gameId then { g with chatId := none } else g,
      messages := db.messages.filter fun m => m.chatId != cid,
      chats := db.chats.filter fun c => c.id != cid }

/-- The `mySymbol` computed in the move handler: `'X'` when the caller is
player X, else `'O'`. -/
def moveSymbol (game : Game) (callerId : Nat) : Char :=
  if game.playerXId = callerId then 'X' else 'O'

/-- The game summary sent back by a successful `POST /games/:id/move`. -/
structure MoveReply where
  boardState : List Char
  playerTurn : Char
  status : String
  winnerId : Option Nat
  youWon : Bool
deriving Repr, DecidableEq

/-- Result of the `POST /games/:id/move` handler. -/
structure MoveResult where
  db : DB
  httpStatus : Nat
  error : Option String
  notifications : List Notification
  reply : Option MoveReply
deriving Repr, DecidableEq

/-- The `POST /games/:id/move` handler from `games.ts` (lines 430-519):
validate id, position, existence, status, membership, turn and target cell;
place the symbol; run win detection before draw detection; persist; tear the
chat down on a terminal transition; notify the opponent. -/
def moveHandler (db : DB) (caller : User) (gameId : Int) (position : Int) :
    MoveResult :=
  if gameId < 1 then ⟨db, 400, some "Id inválido", [], none⟩
  else if position < 0 ∨ position > 8 then
    ⟨db, 400, some "position debe ser 0-8", [], none⟩
  else
    match firstRow db.games (fun g => g.id == gameId.toNat) with
    | none => ⟨db, 404, some "Partida no encontrada", [], none⟩
    | some game =>
      if game.status ≠ "ACTIVE" then ⟨db, 400, some "Partida terminada", [], none⟩
      else if ¬ (game.playerXId = caller.id ∨ game.playerOId = caller.id) then
        ⟨db, 403, some "No participas en esta partida", [], none⟩
      else
        let mySymbol := moveSymbol game caller.id
        if game.playerTurn ≠ mySymbol then
          ⟨db, 400, some "No es tu turno", [], none⟩
        else if game.boardState[position.toNat]? ≠ some '-' then
          ⟨db, 400, some "Casilla ocupada", [], none⟩
        else
          let newBoard := game.boardState.set position.toNat mySymbol
          let won := checkWinner newBoard mySymbol
          let newStatus :=
            if won then "FINISHED"
            else if isDraw newBoard then "DRAW" else game.status
          let newTurn :=
            if won then game.playerTurn
            else if game.playerTurn = 'X' then 'O' else 'X'
          let winnerId : Option Nat := if won then some caller.id else none
          let db1 :=
            { db with
              games := db.games.map fun g =>
                if g.id == gameId.toNat then
                  { g with
                    boardState := newBoard, playerTurn := newTurn,
                    status := newStatus,
                    winnerId :=
                      match winnerId with
                      | some w => some w
                      | none => g.winnerId }
                else g }
          let db2 :=
            if newStatus = "FINISHED" ∨ newStatus = "DRAW" then
              deleteGameChat db1 game.chatId gameId.toNat
            else db1
          let opponentId :=
            if game.playerXId = caller.id then game.playerOId else game.playerXId
          ⟨db2, 200, none, [⟨opponentId, "game_move", none⟩],
            some ⟨newBoard, newTurn, newStatus, winnerId,
              winnerId == some caller.id⟩⟩

/-- Result of the game-invitation accept and friend-request handlers. -/
structure ActionResult where
  db : DB
  httpStatus : Nat
  error : Option String
  notifications : List Notification
deriving Repr, DecidableEq

/-- The `POST /games/invitations/:id/accept` handler from `games.ts` (lines
183-234): look up the caller's PENDING invitation, insert a chat, insert the
match (sender plays X, receiver plays O, initial board, turn X, ACTIVE, no
winner), delete the invitation row and notify the sender. -/
def acceptInvitationHandler (db : DB) (caller : User) (invId : Int) :
    ActionResult :=
  if invId < 1 then ⟨db, 400, some "Id inválido", []⟩
  else
    match firstRow db.gameInvitations (fun i =>
        i.id == invId.toNat && i.receiverId == caller.id &&
          i.status == "PENDING") with
    | none => ⟨db, 404, some "Invitación no encontrada o ya usada", []⟩
    | some inv =>
      let newChatId := db.nextChatId
      let db1 :=
        { db with
          chats := db.chats ++
            [(⟨newChatId, inv.senderId, inv.receiverId⟩ : Chat)],
          nextChatId := newChatId + 1 }
      let newGameId := db1.nextGameId
      let db2 :=
        { db1 with
          games := db1.games ++
            [(⟨newGameId, inv.senderId, inv.receiverId, some newChatId,
              INITIAL_BOARD, 'X', "ACTIVE", none⟩ : Game)],
          nextGameId := newGameId + 1 }
      let db3 :=
        { db2 with
          gameInvitations :=
            db2.gameInvitations.filter fun i => i.id != invId.toNat }
      ⟨db3, 200, none, [⟨inv.senderId, "game_invitation_accepted", none⟩]⟩

/-- Result of the `POST /games/invite` handler; `code` is the machine-readable
reason code of a rejection (`"NOT_FRIEND"`). -/
structure InviteResult where
  db : DB
  httpStatus : Nat
  error : Option String
  code : Option String
  notifications : List Notification
deriving Repr, DecidableEq

/-- The friendship rows linking `a` and `b` in either direction, as queried by
`POST /games/invite` and the friend-request handlers. -/
def friendRowsBetween (db : DB) (a b : Nat) : List Friendship :=
  db.friendships.filter fun f =>
    (f.userId == a && f.friendId == b) || (f.userId == b && f.friendId == a)

/-- The `POST /games/invite` handler from `games.ts` (lines 115-180): resolve
the target username, forbid self-invites, require an existing friendship in
either direction (reason code `NOT_FRIEND`), forbid a duplicate PENDING
invitation, insert the invitation and notify the target. -/
def inviteHandler (db : DB) (caller : User) (targetUsername : String) :
    InviteResult :=
  if jsTrim targetUsername = "" then
    ⟨db, 400, some "Falta targetUsername", none, []⟩
  else
    match firstRow db.users (fun u => u.username == jsTrim targetUsername) with
    | none => ⟨db, 404, some "Usuario no encontrado", none, []⟩
    | some target =>
      if target.id = caller.id then
        ⟨db, 400, some "No puedes invitarte a ti mismo", none, []⟩
      else if (friendRowsBetween db caller.id target.id).length = 0 then
        ⟨db, 403, some "Solo puedes invitar a jugar a tus amigos",
          some "NOT_FRIEND", []⟩
      else if 0 < (db.gameInvitations.filter fun i =>
          i.senderId == caller.id && i.receiverId == target.id &&
            i.status == "PENDING").length then
        ⟨db, 400, some "Ya hay una invitación pendiente", none, []⟩
      else
        ⟨{ db with
            gameInvitations := db.gameInvitations ++
              [⟨db.nextInvitationId, caller.id, target.id, "PENDING"⟩],
            nextInvitationId := db.nextInvitationId + 1 },
          200, none, none, [⟨target.id, "game_invitation", none⟩]⟩

/-- The `POST /friends/accept/:requestId` handler from `friends.ts` (lines
118-168): look up the caller's PENDING request, delete it, re-check for an
existing friendship in either direction and only insert the friendship row
when none exists, then notify the sender. -/
def acceptFriendRequestHandler (db : DB) (caller : User) (reqId : Int)
    (newRowId : Nat) : ActionResult :=
  match firstRow db.friendRequests (fun r =>
      r.id == reqId.toNat && r.receiverId == caller.id &&
        r.status == "PENDING") with
  | none => ⟨db, 404, some "Solicitud no encontrada o inválida", []⟩
  | some friendRequest =>
    let db1 :=
      { db with
        friendRequests := db.friendRequests.filter fun r => r.id != reqId.toNat }
    let db2 :=
      if (friendRowsBetween db1 caller.id friendRequest.senderId).length = 0 then
        { db1 with
          friendships := db1.friendships ++
            [⟨newRowId, caller.id, friendRequest.senderId⟩] }
      else db1
    ⟨db2, 200, none, [⟨friendRequest.senderId, "friend_accepted", none⟩]⟩

/-- A message as listed by `GET /games/:id/chat`. -/
structure MessageView where
  id : Nat
  content : String
  senderUsername : String
  isMine : Bool
deriving Repr, DecidableEq

/-- The payload of a successful `GET /games/:id/chat`. -/
structure ChatReply where
  chatId : Nat
  opponentUsername : String
  messages : List MessageView
deriving Repr, DecidableEq

/-- Result of the `GET /games/:id/chat` handler. -/
structure ChatResult where
  db : DB
  httpStatus : Nat
  error : Option String
  reply : Option ChatReply
deriving Repr, DecidableEq

/-- Create the game's chat on first access: insert a chat row for the two
players and store its id in the game row (the lazy-creation block shared by
`GET /games/:id/chat` and `POST /games/:id/chat/messages`). -/
def ensureChat (db : DB) (game : Game) (gameId : Nat) : DB × Nat :=
  match game.chatId with
  | some cid => (db, cid)
  | none =>
    let cid := db.nextChatId
    let db1 :=
      { db with
        chats := db.chats ++ [(⟨cid, game.playerXId, game.playerOId⟩ : Chat)],
        nextChatId := cid + 1 }
    ({ db1 with
        games := db1.games.map fun g =>
          if g.id == gameId then { g with chatId := some cid } else g }, cid)

/-- The `GET /games/:id/chat` handler from `games.ts` (lines 268-326): reject
bad ids, missing games and non-participants; on a FINISHED or DRAW game run
`deleteGameChat` and reject; otherwise create the chat lazily and return the
messages tagged with `isMine`. -/
def getChatHandler (db : DB) (caller : User) (gameId : Int) : ChatResult :=
  if gameId < 1 then ⟨db, 400, some "Id inválido", none⟩
  else
    match firstRow db.games (fun g => g.id == gameId.toNat) with
    | none => ⟨db, 404, some "Partida no encontrada", none⟩
    | some game =>
      if ¬ (game.playerXId = caller.id ∨ game.playerOId = caller.id) then
        ⟨db, 403, some "No participas en esta partida", none⟩
      else if game.status = "FINISHED" ∨ game.status = "DRAW" then
        ⟨deleteGameChat db game.chatId gameId.toNat, 403,
          some "El chat no está disponible para partidas terminadas", none⟩
      else
        let dc := ensureChat db game gameId.toNat
        let opponentId :=
          if game.playerXId = caller.id then game.playerOId else game.playerXId
        let opponentUsername :=
          ((firstRow dc.1.users fun u => u.id == opponentId).map
            (fun u => u.username)).getD ""
        let list :=
          (dc.1.messages.filter fun m => m.chatId == dc.2).map fun m =>
            ⟨m.id, m.content,
              ((firstRow dc.1.users fun u => u.id == m.senderId).map
                (fun u => u.username)).getD "?",
              m.senderId == caller.id⟩
        ⟨dc.1, 200, none, some ⟨dc.2, opponentUsername, list⟩⟩

/-- The `POST /games/:id/chat/messages` handler from `games.ts` (lines
329-385): reject bad ids, blank content, missing games, non-participants and
terminal games; create the chat lazily; insert the message with the trimmed
content truncated to 2000 characters; notify the opponent (`isMine = false`)
and the sender (`isMine = true`). -/
def postMessageHandler (db : DB) (caller : User) (gameId : Int)
    (content : String) : ActionResult :=
  if gameId < 1 then ⟨db, 400, some "Id inválido", []⟩
  else if jsTrim content = "" then ⟨db, 400, some "Mensaje vacío", []⟩
  else
    match firstRow db.games (fun g => g.id == gameId.toNat) with
    | none => ⟨db, 404, some "Partida no encontrada", []⟩
    | some game =>
      if ¬ (game.playerXId = caller.id ∨ game.playerOId = caller.id) then
        ⟨db, 403, some "No participas en esta partida", []⟩
      else if game.status = "FINISHED" ∨ game.status = "DRAW" then
        ⟨db, 403, some "El chat no está disponible para partidas terminadas", []⟩
      else
        let dc := ensureChat db game gameId.toNat
        let db2 :=
          { dc.1 with
            messages := dc.1.messages ++
              [⟨dc.1.nextMessageId, dc.2, caller.id,
                jsSlice (jsTrim content) 2000⟩],
            nextMessageId := dc.1.nextMessageId + 1 }
        let recipientId :=
          if game.playerXId = caller.id then game.playerOId else game.playerXId
        ⟨db2, 201, none,
          [⟨recipientId, "chat_message", some false⟩,
            ⟨caller.id, "chat_message", some true⟩]⟩

/-- A WebSocket connection handle: an identity and the transport ready state
(`1` is "open"). -/
structure Socket where
  sid : Nat
  readyState : Nat
deriving Repr, DecidableEq

/-- The `userSockets` map of `plugins/realtime`: user id to the set of live
connections, in insertion order. -/
abbrev Registry : Type := List (Nat × List Socket)

/-- `userSockets.get(userId)`. -/
def regFind (r : Registry) (u : Nat) : Option (List Socket) :=
  ((r : List (Nat × List Socket)).find? fun e => e.1 == u).map fun e => e.2

/-- Replace the set stored under `u` (the map entry is mutated in place). -/
def setEntry (r : Registry) (u : Nat) (l : List Socket) : Registry :=
  (r : List (Nat × List Socket)).map fun e => if e.1 == u then (u, l) else e

/-- Registration in the `GET /ws` handler: fetch or create the user's set and
add the socket (adding an already-present member leaves a set unchanged). -/
def register (r : Registry) (u : Nat) (s : Socket) : Registry :=
  match regFind r u with
  | none => (r : List (Nat × List Socket)) ++ [(u, [s])]
  | some set => setEntry r u (if set.contains s then set else set ++ [s])

/-- The `remove` closure attached to `close` and `error` in the `GET /ws`
handler: if the socket is absent, do nothing; otherwise delete it from the
user's set, and drop the user's entry when the set becomes empty. -/
def deregister (r : Registry) (u : Nat) (s : Socket) : Registry :=
  match regFind r u with
  | none => r
  | some set =>
    if ¬ (set.contains s) then r
    else
      let set' := set.filter fun x => x != s
      if set'.length = 0 then
        (r : List (Nat × List Socket)).filter fun e => e.1 != u
      else setEntry r u set'

/-- `notifyUser(userId, event, data)` from `plugins/realtime` (lines 54-69):
look the user's set up; if absent or empty, log and return; otherwise
serialize the payload once and send it to every connection whose ready state
is `1` (open), skipping the others.  The returned list holds the writes that
were performed. -/
def notifyUser (r : Registry) (u : Nat) (event : String) (data : String) :
    List (Socket × (String × String)) :=
  match regFind r u with
  | none => []
  | some set =>
    if set.length = 0 then []
    else
      let payload := (event, data)
      set.foldl
        (fun acc ws => if ws.readyState = 1 then acc ++ [(ws, payload)] else acc)
        []

/-- Result of one `GET /ws` connection attempt. -/
structure WsResult where
  registry : Registry
  closed : Bool
  registered : Option Nat
  handlers : List (String × Nat × Socket)
  sent : List String
deriving Repr, DecidableEq

/-- The `GET /ws` handler from `plugins/realtime` (lines 96-131).  `verify`
abstracts `jwt.verify`: `none` means verification threw (bad signature or
expired), `some none` means the decoded payload has no `id` member, and
`some (some uid)` is a valid payload for user `uid`.  On any failure the
socket is closed with nothing sent and nothing registered; on success the
socket is registered under `uid` and `close`/`error` handlers are attached
whose behaviour is `deregister · uid s`. -/
def wsHandler (r : Registry) (verify : String → Option (Option Nat))
    (token : Option String) (s : Socket) : WsResult :=
  match token with
  | none => ⟨r, true, none, [], []⟩
  | some t =>
    if t = "" then ⟨r, true, none, [], []⟩
    else
      match verify t with
      | none => ⟨r, true, none, [], []⟩
      | some none => ⟨r, true, none, [], []⟩
      | some (some uid) =>
        ⟨register r uid s, false, some uid,
          [("close", uid, s), ("error", uid, s)], []⟩

/-- The spec's match invariant: `winnerId` is non-null iff `status = FINISHED`. -/
def winnerInvariant (g : Game) : Prop :=
  g.winnerId ≠ none ↔ g.status = "FINISHED"

/-- No registry entry holds an empty connection set: every key belongs to a
user with at least one live connection. -/
def regNoEmpty (r : Registry) : Prop :=
  ∀ e ∈ (r : List (Nat × List Socket)), e.2 ≠ []

/-- All preconditions of `POST /games/:id/move` hold for `game`, the first
stored row with id `gameId`: valid id and position, ACTIVE status, the caller
is a participant whose symbol matches the turn, and the target cell is free. -/
def movePre (db : DB) (caller : User) (gameId position : Int) (game : Game) :
    Prop :=
  1 ≤ gameId ∧ 0 ≤ position ∧ position ≤ 8 ∧
    firstRow db.games (fun g => g.id == gameId.toNat) = some game ∧
    game.status = "ACTIVE" ∧
    (game.playerXId = caller.id ∨ game.playerOId = caller.id) ∧
    game.playerTurn = moveSymbol game caller.id ∧
    game.boardState[position.toNat]? = some '-'

/-- Test user 1. -/
def alice : User := ⟨1, "alice"⟩

/-- Test user 2. -/
def bob : User := ⟨2, "bob"⟩

/-- A database holding one ACTIVE match (id 7, alice is X, bob is O) with a
bound chat, where alice moving at cell 2 completes the top row and fills the
ninth cell. -/
def dbWin : DB :=
  ⟨[alice, bob],
   [⟨7, 1, 2, some 3, ['X', 'X', '-', 'O', 'O', 'X', 'O', 'X', 'O'], 'X',
     "ACTIVE", none⟩],
   [⟨3, 1, 2⟩],
   [⟨1, 3, 1, "hola"⟩],
   [], [⟨1, 1, 2⟩], [], 4, 8, 2, 1⟩

/-- A database holding one FINISHED match whose chat outlived it (id 7,
winner alice, chat 3 still bound). -/
def dbFin : DB :=
  ⟨[alice, bob],
   [⟨7, 1, 2, some 3, ['X', 'X', 'X', 'O', 'O', 'X', 'O', 'X', 'O'], 'X',
     "FINISHED", some 1⟩],
   [⟨3, 1, 2⟩],
   [⟨1, 3, 1, "hola"⟩],
   [], [⟨1, 1, 2⟩], [], 4, 8, 2, 1⟩

/-- A database where alice and bob already share a match (id 10) and a PENDING
game invitation from alice to bob is still open. -/
def dbCex3 : DB :=
  ⟨[alice, bob],
   [⟨10, 1, 2, none, INITIAL_BOARD, 'X', "ACTIVE", none⟩],
   [], [],
   [⟨1, 1, 2, "PENDING"⟩],
   [⟨1, 1, 2⟩], [], 1, 11, 1, 2⟩

/-- A database with a PENDING game invitation from alice to bob but no
friendship row in either direction (the friendship was removed after the
invitation was sent). -/
def dbCex4 : DB :=
  ⟨[alice, bob],
   [], [], [],
   [⟨1, 1, 2, "PENDING"⟩],
   [], [], 1, 1, 1, 2⟩

/-- A database with a PENDING friend request from bob to alice although the
two are already friends, and a PENDING game invitation from alice to bob. -/
def dbAmend3 : DB :=
  ⟨[alice, bob],
   [], [], [],
   [⟨1, 1, 2, "PENDING"⟩],
   [⟨1, 1, 2⟩],
   [⟨5, 2, 1, "PENDING"⟩],
   1, 1, 1, 2⟩

/-- An open connection handle. -/
def sockOpen : Socket := ⟨100, 1⟩

/-- A connection handle whose transport is already closed. -/
def sockStale : Socket := ⟨101, 3⟩

/-- A registry where user 5 has one open and one closed connection. -/
def regSample : Registry := [(5, [sockOpen, sockStale])]

/-- A sample verifier: `"good"` is a valid token for user 5, `"noid"` decodes
to a payload without an id, anything else fails verification. -/
def verifySample : String → Option (Option Nat) := fun t =>
  if t = "good" then some (some 5)
  else if t = "noid" then some none
  else none

/-- C1: an accepted move that completes a three-in-a-row for the mover's
symbol makes the match FINISHED with `winnerId` the moving user and the turn
unchanged, and is never reported as DRAW: win detection runs before draw
detection, so this holds even when the move also fills the ninth cell. -/
theorem move_win_precedence
    (db : DB) (caller : User) (gameId position : Int) (game : Game)
    (hpre : movePre db caller gameId position game)
    (hwin : checkWinner
        (game.boardState.set position.toNat (moveSymbol game caller.id))
        (moveSymbol game caller.id) = true) :
    (moveHandler db caller gameId position).error = none ∧
    (moveHandler db caller gameId position).reply =
      some ⟨game.boardState.set position.toNat (moveSymbol game caller.id),
        game.playerTurn, "FINISHED", some caller.id, true⟩ ∧
    (∀ rep, (moveHandler db caller gameId position).reply = some rep →
      rep.status ≠ "DRAW") ∧
    ∀ g' ∈ (moveHandler db caller gameId position).db.games,
      g'.id = gameId.toNat →
        g'.status = "FINISHED" ∧ g'.winnerId = some caller.id ∧
          g'.playerTurn = game.playerTurn := by
  obtain ⟨h1, h2, h3, h4, h5, h6, h7, h8⟩ := hpre
  have hg1 : ¬ gameId < 1 := by omega
  have hg2 : ¬ (position < 0 ∨ position > 8) := by omega
  have hs : ¬ (game.status ≠ "ACTIVE") := not_not_intro h5
  have hp : ¬ ¬ (game.playerXId = caller.id ∨ game.playerOId = caller.id) :=
    not_not_intro h6
  have ht : ¬ (game.playerTurn ≠ moveSymbol game caller.id) := not_not_intro h7
  have hc : ¬ (game.boardState[position.toNat]? ≠ some '-') := not_not_intro h8
  have hmove : moveHandler db caller gameId position =
      ⟨deleteGameChat
          { db with
            games := db.games.map fun g =>
              if g.id == gameId.toNat then
                { g with
                  boardState :=
                    game.boardState.set position.toNat (moveSymbol game caller.id),
                  playerTurn := game.playerTurn,
                  status := "FINISHED",
                  winnerId := some caller.id }
              else g }
          game.chatId gameId.toNat,
        200, none,
        [⟨if game.playerXId = caller.id then game.playerOId else game.playerXId,
          "game_move", none⟩],
        some ⟨game.boardState.set position.toNat (moveSymbol game caller.id),
          game.playerTurn, "FINISHED", some caller.id, true⟩⟩ := by
    simp only [moveHandler, if_neg hg1, if_neg hg2, h4, if_neg hs, if_neg hp,
      if_neg ht, if_neg hc, hwin, if_true, ite_true]
    simp [hwin]
  rw [hmove]
  refine ⟨rfl, rfl, ?_, ?_⟩
  · intro rep hrep
    cases hrep
    simp
  · intro g' hmem hid
    cases hchat : game.chatId with
    | none =>
      simp only [deleteGameChat, hchat] at hmem
      obtain ⟨g0, hg0, rfl⟩ := List.mem_map.1 hmem
      by_cases h0 : (g0.id == gameId.toNat) = true
      · rw [if_pos h0]
        exact ⟨rfl, rfl, rfl⟩
      · rw [if_neg h0] at hid
        exact absurd (by simp [hid]) h0
    | some cid =>
      simp only [deleteGameChat, hchat] at hmem
      obtain ⟨g1, hg1mem, rfl⟩ := List.mem_map.1 hmem
      obtain ⟨g0, hg0, rfl⟩ := List.mem_map.1 hg1mem
      by_cases h0 : (g0.id == gameId.toNat) = true
      · rw [if_pos h0]
        split
        · exact ⟨rfl, rfl, rfl⟩
        · exact ⟨rfl, rfl, rfl⟩
      · rw [if_neg h0] at hid
        rw [if_neg h0] at hid
        exact absurd (by simp [hid]) h0

/-- C1 witness: in `dbWin`, alice playing cell 2 of match 7 completes the top
row and fills the ninth cell; the result is FINISHED with winner alice, turn
still X, not DRAW. -/
theorem move_win_precedence_witness :
    (moveHandler dbWin alice 7 2).error = none ∧
    (moveHandler dbWin alice 7 2).reply =
      some ⟨['X', 'X', 'X', 'O', 'O', 'X', 'O', 'X', 'O'], 'X', "FINISHED",
        some 1, true⟩ ∧
    (∀ rep, (moveHandler dbWin alice 7 2).reply = some rep →
      rep.status ≠ "DRAW") ∧
    ∀ g' ∈ (moveHandler dbWin alice 7 2).db.games, g'.id = (7 : Int).toNat →
      g'.status = "FINISHED" ∧ g'.winnerId = some 1 ∧ g'.playerTurn = 'X' :=
  move_win_precedence dbWin alice 7 2
    ⟨7, 1, 2, some 3, ['X', 'X', '-', 'O', 'O', 'X', 'O', 'X', 'O'], 'X',
      "ACTIVE", none⟩
    (by unfold movePre; decide) (by decide)

/-- C2: every rejected move call — match not found, match not ACTIVE, caller
not a participant, not the caller's turn, position outside `[0,8]`, target
cell occupied — reports its own error (the six messages are pairwise
distinct), leaves the database and hence the match's board, turn, status and
winnerId unchanged, and sends no notification; a call passing all the
preconditions is not rejected. -/
theorem move_rejections (db : DB) (caller : User) (gameId position : Int) :
    ((moveHandler db caller gameId position).error.isSome →
      (moveHandler db caller gameId position).db = db ∧
      (moveHandler db caller gameId position).notifications = []) ∧
    (1 ≤ gameId → (position < 0 ∨ position > 8) →
      moveHandler db caller gameId position =
        ⟨db, 400, some "position debe ser 0-8", [], none⟩) ∧
    (1 ≤ gameId → 0 ≤ position → position ≤ 8 →
      firstRow db.games (fun g => g.id == gameId.toNat) = none →
      moveHandler db caller gameId position =
        ⟨db, 404, some "Partida no encontrada", [], none⟩) ∧
    (∀ game, 1 ≤ gameId → 0 ≤ position → position ≤ 8 →
      firstRow db.games (fun g => g.id == gameId.toNat) = some game →
      game.status ≠ "ACTIVE" →
      moveHandler db caller gameId position =
        ⟨db, 400, some "Partida terminada", [], none⟩) ∧
    (∀ game, 1 ≤ gameId → 0 ≤ position → position ≤ 8 →
      firstRow db.games (fun g => g.id == gameId.toNat) = some game →
      game.status = "ACTIVE" →
      ¬ (game.playerXId = caller.id ∨ game.playerOId = caller.id) →
      moveHandler db caller gameId position =
        ⟨db, 403, some "No participas en esta partida", [], none⟩) ∧
    (∀ game, 1 ≤ gameId → 0 ≤ position → position ≤ 8 →
      firstRow db.games (fun g => g.id == gameId.toNat) = some game →
      game.status = "ACTIVE" →
      (game.playerXId = caller.id ∨ game.playerOId = caller.id) →
      game.playerTurn ≠ moveSymbol game caller.id →
      moveHandler db caller gameId position =
        ⟨db, 400, some "No es tu turno", [], none⟩) ∧
    (∀ game, 1 ≤ gameId → 0 ≤ position → position ≤ 8 →
      firstRow db.games (fun g => g.id == gameId.toNat) = some game →
      game.status = "ACTIVE" →
      (game.playerXId = caller.id ∨ game.playerOId = caller.id) →
      game.playerTurn = moveSymbol game caller.id →
      game.boardState[position.toNat]? ≠ some '-' →
      moveHandler db caller gameId position =
        ⟨db, 400, some "Casilla ocupada", [], none⟩) ∧
    (∀ game, movePre db caller gameId position game →
      (moveHandler db caller gameId position).error = none) ∧
    List.Pairwise (· ≠ ·)
      ["Partida no encontrada", "Partida terminada",
        "No participas en esta partida", "No es tu turno",
        "position debe ser 0-8", "Casilla ocupada"] := by
  refine ⟨?_, ?_, ?_, ?_, ?_, ?_, ?_, ?_, by decide⟩
  · intro hsome
    by_cases hq1 : gameId < 1
    · simp [moveHandler, hq1]
    by_cases hq2 : position < 0 ∨ position > 8
    · simp [moveHandler, hq1, hq2]
    cases hq3 : firstRow db.games (fun g => g.id == gameId.toNat) with
    | none => simp [moveHandler, hq1, hq2, hq3]
    | some game =>
      by_cases hq4 : game.status ≠ "ACTIVE"
      · simp [moveHandler, hq1, hq2, hq3, hq4]
      by_cases hq5 : game.playerXId = caller.id ∨ game.playerOId = caller.id
      case neg => simp [moveHandler, hq1, hq2, hq3, hq4, hq5]
      by_cases hq6 : game.playerTurn ≠ moveSymbol game caller.id
      · simp [moveHandler, hq1, hq2, hq3, hq4, hq5, hq6]
      by_cases hq7 : game.boardState[position.toNat]? ≠ some '-'
      · simp [moveHandler, hq1, hq2, hq3, hq4, hq5, hq6, hq7]
      · simp [moveHandler, hq1, hq2, hq3, hq4, hq5, hq6, hq7] at hsome
  · intro h1 h2
    unfold moveHandler
    rw [if_neg (by omega : ¬ gameId < 1), if_pos h2]
  · intro h1 h2 h3 hrow
    unfold moveHandler
    rw [if_neg (by omega : ¬ gameId < 1),
      if_neg (by omega : ¬ (position < 0 ∨ position > 8)), hrow]
  · intro game h1 h2 h3 hrow hstat
    simp only [moveHandler, if_neg (by omega : ¬ gameId < 1),
      if_neg (by omega : ¬ (position < 0 ∨ position > 8)), hrow,
      if_pos hstat]
  · intro game h1 h2 h3 hrow hstat hnp
    simp only [moveHandler, if_neg (by omega : ¬ gameId < 1),
      if_neg (by omega : ¬ (position < 0 ∨ position > 8)), hrow,
      if_neg (not_not_intro hstat), if_pos hnp]
  · intro game h1 h2 h3 hrow hstat hpart hturn
    simp only [moveHandler, if_neg (by omega : ¬ gameId < 1),
      if_neg (by omega : ¬ (position < 0 ∨ position > 8)), hrow,
      if_neg (not_not_intro hstat), if_neg (not_not_intro hpart),
      if_pos hturn]
  · intro game h1 h2 h3 hrow hstat hpart hturn hcell
    simp only [moveHandler, if_neg (by omega : ¬ gameId < 1),
      if_neg (by omega : ¬ (position < 0 ∨ position > 8)), hrow,
      if_neg (not_not_intro hstat), if_neg (not_not_intro hpart),
      if_neg (not_not_intro hturn), if_pos hcell]
  · intro game hpre
    obtain ⟨h1, h2, h3, h4, h5, h6, h7, h8⟩ := hpre
    simp only [moveHandler, if_neg (by omega : ¬ gameId < 1),
      if_neg (by omega : ¬ (position < 0 ∨ position > 8)), h4,
      if_neg (not_not_intro h5), if_neg (not_not_intro h6),
      if_neg (not_not_intro h7), if_neg (not_not_intro h8)]

/-- C2 witness: in `dbWin`, alice moving at the occupied cell 0 of match 7 is
rejected with "Casilla ocupada", the database is unchanged and nothing is
notified. -/
theorem move_rejections_witness :
    moveHandler dbWin alice 7 0 =
      ⟨dbWin, 400, some "Casilla ocupada", [], none⟩ ∧
    (moveHandler dbWin alice 7 0).db = dbWin ∧
    (moveHandler dbWin alice 7 0).notifications = [] := by
  have h := (move_rejections dbWin alice 7 0).2.2.2.2.2.2.1
    ⟨7, 1, 2, some 3, ['X', 'X', '-', 'O', 'O', 'X', 'O', 'X', 'O'], 'X',
      "ACTIVE", none⟩
    (by decide) (by decide) (by decide) (by decide) (by decide) (by decide)
    (by decide) (by decide)
  exact ⟨h, by rw [h], by rw [h]⟩

/-- Value of an accepted winning move: status FINISHED, winner the mover, turn
kept, chat teardown. -/
theorem moveHandler_win_eq
    (db : DB) (caller : User) (gameId position : Int) (game : Game)
    (hpre : movePre db caller gameId position game)
    (hwin : checkWinner
        (game.boardState.set position.toNat (moveSymbol game caller.id))
        (moveSymbol game caller.id) = true) :
    moveHandler db caller gameId position =
      ⟨deleteGameChat
          { db with
            games := db.games.map fun g =>
              if g.id == gameId.toNat then
                { g with
                  boardState :=
                    game.boardState.set position.toNat (moveSymbol game caller.id),
                  playerTurn := game.playerTurn,
                  status := "FINISHED",
                  winnerId := some caller.id }
              else g }
          game.chatId gameId.toNat,
        200, none,
        [⟨if game.playerXId = caller.id then game.playerOId else game.playerXId,
          "game_move", none⟩],
        some ⟨game.boardState.set position.toNat (moveSymbol game caller.id),
          game.playerTurn, "FINISHED", some caller.id, true⟩⟩ := by
  obtain ⟨h1, h2, h3, h4, h5, h6, h7, h8⟩ := hpre
  simp only [moveHandler, if_neg (by omega : ¬ gameId < 1),
    if_neg (by omega : ¬ (position < 0 ∨ position > 8)), h4,
    if_neg (not_not_intro h5), if_neg (not_not_intro h6),
    if_neg (not_not_intro h7), if_neg (not_not_intro h8), hwin]
  simp [hwin]

/-- Value of an accepted drawing move: status DRAW, winner column untouched,
turn flipped, chat teardown. -/
theorem moveHandler_draw_eq
    (db : DB) (caller : User) (gameId position : Int) (game : Game)
    (hpre : movePre db caller gameId position game)
    (hwin : checkWinner
        (game.boardState.set position.toNat (moveSymbol game caller.id))
        (moveSymbol game caller.id) = false)
    (hdraw : isDraw
        (game.boardState.set position.toNat (moveSymbol game caller.id)) = true) :
    moveHandler db caller gameId position =
      ⟨deleteGameChat
          { db with
            games := db.games.map fun g =>
              if g.id == gameId.toNat then
                { g with
                  boardState :=
                    game.boardState.set position.toNat (moveSymbol game caller.id),
                  playerTurn := if game.playerTurn = 'X' then 'O' else 'X',
                  status := "DRAW",
                  winnerId := g.winnerId }
              else g }
          game.chatId gameId.toNat,
        200, none,
        [⟨if game.playerXId = caller.id then game.playerOId else game.playerXId,
          "game_move", none⟩],
        some ⟨game.boardState.set position.toNat (moveSymbol game caller.id),
          if game.playerTurn = 'X' then 'O' else 'X', "DRAW", none, false⟩⟩ := by
  obtain ⟨h1, h2, h3, h4, h5, h6, h7, h8⟩ := hpre
  simp only [moveHandler, if_neg (by omega : ¬ gameId < 1),
    if_neg (by omega : ¬ (position < 0 ∨ position > 8)), h4,
    if_neg (not_not_intro h5), if_neg (not_not_intro h6),
    if_neg (not_not_intro h7), if_neg (not_not_intro h8), hwin, hdraw]
  simp [hwin, hdraw]

/-- Value of an accepted move that neither wins nor draws: status stays
ACTIVE, winner column untouched, turn flipped, no chat teardown. -/
theorem moveHandler_go_eq
    (db : DB) (caller : User) (gameId position : Int) (game : Game)
    (hpre : movePre db caller gameId position game)
    (hwin : checkWinner
        (game.boardState.set position.toNat (moveSymbol game caller.id))
        (moveSymbol game caller.id) = false)
    (hdraw : isDraw
        (game.boardState.set position.toNat (moveSymbol game caller.id)) = false) :
    moveHandler db caller gameId position =
      ⟨{ db with
          games := db.games.map fun g =>
            if g.id == gameId.toNat then
              { g with
                boardState :=
                  game.boardState.set position.toNat (moveSymbol game caller.id),
                playerTurn := if game.playerTurn = 'X' then 'O' else 'X',
                status := "ACTIVE",
                winnerId := g.winnerId }
            else g },
        200, none,
        [⟨if game.playerXId = caller.id then game.playerOId else game.playerXId,
          "game_move", none⟩],
        some ⟨game.boardState.set position.toNat (moveSymbol game caller.id),
          if game.playerTurn = 'X' then 'O' else 'X', "ACTIVE", none, false⟩⟩ := by
  obtain ⟨h1, h2, h3, h4, h5, h6, h7, h8⟩ := hpre
  simp only [moveHandler, if_neg (by omega : ¬ gameId < 1),
    if_neg (by omega : ¬ (position < 0 ∨ position > 8)), h4,
    if_neg (not_not_intro h5), if_neg (not_not_intro h6),
    if_neg (not_not_intro h7), if_neg (not_not_intro h8), hwin, hdraw]
  simp [hwin, hdraw, h5]

/-- C5: `winnerId` is non-null iff `status = FINISHED`.  A match created by
invitation acceptance is ACTIVE with a null winner; an accepted move on a
match whose stored rows with that id have null winners (as every ACTIVE match
has) yields rows satisfying the invariant, with a null winner on DRAW and the
mover as winner on FINISHED. -/
theorem winner_iff_finished :
    (∀ db caller (invId : Int) inv,
      1 ≤ invId →
      firstRow db.gameInvitations (fun i =>
          i.id == invId.toNat && i.receiverId == caller.id &&
            i.status == "PENDING") = some inv →
      ∃ g', (acceptInvitationHandler db caller invId).db.games =
          db.games ++ [g'] ∧
        g'.status = "ACTIVE" ∧ g'.winnerId = none ∧ winnerInvariant g') ∧
    (∀ db caller (gameId position : Int) game,
      movePre db caller gameId position game →
      (∀ g0 ∈ db.games, g0.id = gameId.toNat → g0.winnerId = none) →
      ∀ g' ∈ (moveHandler db caller gameId position).db.games,
        g'.id = gameId.toNat →
          winnerInvariant g' ∧
          (g'.status = "DRAW" → g'.winnerId = none) ∧
          (g'.status = "FINISHED" → g'.winnerId = some caller.id)) := by
  constructor
  · intro db caller invId inv h1 hrow
    refine ⟨⟨db.nextGameId, inv.senderId, inv.receiverId, some db.nextChatId,
      INITIAL_BOARD, 'X', "ACTIVE", none⟩, ?_, rfl, rfl, ?_⟩
    · simp only [acceptInvitationHandler, if_neg (by omega : ¬ invId < 1), hrow]
    · simp [winnerInvariant]
  · intro db caller gameId position game hpre hnull g' hmem hid
    have hpre' := hpre
    obtain ⟨h1, h2, h3, h4, h5, h6, h7, h8⟩ := hpre'
    by_cases hwin : checkWinner
        (game.boardState.set position.toNat (moveSymbol game caller.id))
        (moveSymbol game caller.id) = true
    · rw [moveHandler_win_eq db caller gameId position game hpre hwin] at hmem
      cases hchat : game.chatId with
      | none =>
        simp only [deleteGameChat, hchat] at hmem
        obtain ⟨g0, hg0, rfl⟩ := List.mem_map.1 hmem
        by_cases h0 : (g0.id == gameId.toNat) = true
        · rw [if_pos h0]
          refine ⟨by simp [winnerInvariant], by simp, fun _ => rfl⟩
        · rw [if_neg h0] at hid
          exact absurd (by simp [hid]) h0
      | some cid =>
        simp only [deleteGameChat, hchat] at hmem
        obtain ⟨g1, hg1mem, rfl⟩ := List.mem_map.1 hmem
        obtain ⟨g0, hg0, rfl⟩ := List.mem_map.1 hg1mem
        by_cases h0 : (g0.id == gameId.toNat) = true
        · rw [if_pos h0]
          split
          · refine ⟨by simp [winnerInvariant], by simp, fun _ => rfl⟩
          · refine ⟨by simp [winnerInvariant], by simp, fun _ => rfl⟩
        · rw [if_neg h0] at hid
          rw [if_neg h0] at hid
          exact absurd (by simp [hid]) h0
    · rw [Bool.not_eq_true] at hwin
      by_cases hdraw : isDraw
          (game.boardState.set position.toNat (moveSymbol game caller.id)) = true
      · rw [moveHandler_draw_eq db caller gameId position game hpre hwin hdraw]
          at hmem
        cases hchat : game.chatId with
        | none =>
          simp only [deleteGameChat, hchat] at hmem
          obtain ⟨g0, hg0, rfl⟩ := List.mem_map.1 hmem
          by_cases h0 : (g0.id == gameId.toNat) = true
          · rw [if_pos h0]
            have hw0 : g0.winnerId = none := hnull g0 hg0 (by simpa using h0)
            refine ⟨by simp [winnerInvariant, hw0], fun _ => hw0, by simp⟩
          · rw [if_neg h0] at hid
            exact absurd (by simp [hid]) h0
        | some cid =>
          simp only [deleteGameChat, hchat] at hmem
          obtain ⟨g1, hg1mem, rfl⟩ := List.mem_map.1 hmem
          obtain ⟨g0, hg0, rfl⟩ := List.mem_map.1 hg1mem
          by_cases h0 : (g0.id == gameId.toNat) = true
          · rw [if_pos h0]
            have hw0 : g0.winnerId = none := hnull g0 hg0 (by simpa using h0)
            split
            · refine ⟨by simp [winnerInvariant, hw0], fun _ => hw0, by simp⟩
            · refine ⟨by simp [winnerInvariant, hw0], fun _ => hw0, by simp⟩
          · rw [if_neg h0] at hid
            rw [if_neg h0] at hid
            exact absurd (by simp [hid]) h0
      · rw [Bool.not_eq_true] at hdraw
        rw [moveHandler_go_eq db caller gameId position game hpre hwin hdraw]
          at hmem
        obtain ⟨g0, hg0, rfl⟩ := List.mem_map.1 hmem
        by_cases h0 : (g0.id == gameId.toNat) = true
        · rw [if_pos h0]
          have hw0 : g0.winnerId = none := hnull g0 hg0 (by simpa using h0)
          refine ⟨by simp [winnerInvariant, hw0], fun _ => hw0, by simp⟩
        · rw [if_neg h0] at hid
          exact absurd (by simp [hid]) h0

/-- C5 witness: the match created by bob accepting invitation 1 in `dbCex3`
is ACTIVE with a null winner, and alice's winning ninth move in `dbWin`
yields a row satisfying the invariant with alice as winner. -/
theorem winner_iff_finished_witness :
    (∃ g', (acceptInvitationHandler dbCex3 bob 1).db.games =
        dbCex3.games ++ [g'] ∧
      g'.status = "ACTIVE" ∧ g'.winnerId = none ∧ winnerInvariant g') ∧
    ∀ g' ∈ (moveHandler dbWin alice 7 2).db.games, g'.id = (7 : Int).toNat →
      winnerInvariant g' ∧
      (g'.status = "DRAW" → g'.winnerId = none) ∧
      (g'.status = "FINISHED" → g'.winnerId = some 1) := by
  have h := winner_iff_finished
  exact ⟨h.1 dbCex3 bob 1 ⟨1, 1, 2, "PENDING"⟩ (by decide) (by decide),
    h.2 dbWin alice 7 2
      ⟨7, 1, 2, some 3, ['X', 'X', '-', 'O', 'O', 'X', 'O', 'X', 'O'], 'X',
        "ACTIVE", none⟩
      (by unfold movePre; decide) (by decide)⟩

/-- C6: when an accepted move makes the match terminal (win or draw), the
bound chat is destroyed within the same operation — the game's `chatId` is
cleared, every message of the chat is deleted and the chat row is deleted —
and reading the chat of a match already FINISHED or DRAW is rejected with the
same teardown. -/
theorem chat_teardown :
    (∀ db caller (gameId position : Int) game cid,
      movePre db caller gameId position game →
      game.chatId = some cid →
      (checkWinner
          (game.boardState.set position.toNat (moveSymbol game caller.id))
          (moveSymbol game caller.id) = true ∨
        isDraw
          (game.boardState.set position.toNat (moveSymbol game caller.id)) =
          true) →
      (∀ g' ∈ (moveHandler db caller gameId position).db.games,
        g'.id = gameId.toNat → g'.chatId = none) ∧
      (∀ m ∈ (moveHandler db caller gameId position).db.messages,
        m.chatId ≠ cid) ∧
      (∀ c ∈ (moveHandler db caller gameId position).db.chats, c.id ≠ cid)) ∧
    ∀ db caller (gameId : Int) game,
      1 ≤ gameId →
      firstRow db.games (fun g => g.id == gameId.toNat) = some game →
      (game.playerXId = caller.id ∨ game.playerOId = caller.id) →
      (game.status = "FINISHED" ∨ game.status = "DRAW") →
      getChatHandler db caller gameId =
        ⟨deleteGameChat db game.chatId gameId.toNat, 403,
          some "El chat no está disponible para partidas terminadas", none⟩ := by
  constructor
  · intro db caller gameId position game cid hpre hchat hterm
    have hfin : ∀ dbu : DB,
        (∀ g' ∈ (deleteGameChat dbu (some cid) gameId.toNat).games,
          g'.id = gameId.toNat → g'.chatId = none) ∧
        (∀ m ∈ (deleteGameChat dbu (some cid) gameId.toNat).messages,
          m.chatId ≠ cid) ∧
        (∀ c ∈ (deleteGameChat dbu (some cid) gameId.toNat).chats,
          c.id ≠ cid) := by
      intro dbu
      refine ⟨?_, ?_, ?_⟩
      · intro g' hmem hid
        simp only [deleteGameChat] at hmem
        obtain ⟨g0, hg0, rfl⟩ := List.mem_map.1 hmem
        by_cases h0 : (g0.id == gameId.toNat) = true
        · rw [if_pos h0]
        · rw [if_neg h0] at hid
          exact absurd (by simp [hid]) h0
      · intro m hmem
        simp only [deleteGameChat] at hmem
        have := (List.mem_filter.1 hmem).2
        simpa using this
      · intro c hmem
        simp only [deleteGameChat] at hmem
        have := (List.mem_filter.1 hmem).2
        simpa using this
    rcases hterm with hwin | hdraw
    · rw [moveHandler_win_eq db caller gameId position game hpre hwin, hchat]
      exact hfin _
    · by_cases hwin : checkWinner
          (game.boardState.set position.toNat (moveSymbol game caller.id))
          (moveSymbol game caller.id) = true
      · rw [moveHandler_win_eq db caller gameId position game hpre hwin, hchat]
        exact hfin _
      · rw [Bool.not_eq_true] at hwin
        rw [moveHandler_draw_eq db caller gameId position game hpre hwin hdraw,
          hchat]
        exact hfin _
  · intro db caller gameId game h1 hrow hpart hterm
    have hterm' : game.status = "FINISHED" ∨ game.status = "DRAW" := hterm
    simp only [getChatHandler, if_neg (by omega : ¬ gameId < 1), hrow,
      if_neg (not_not_intro hpart), if_pos hterm']

/-- C6 witness: alice's winning ninth move on match 7 of `dbWin` clears the
game's chat binding and deletes chat 3 and its messages, and reading the chat
of the FINISHED match 7 in `dbFin` is rejected with the same teardown. -/
theorem chat_teardown_witness :
    ((∀ g' ∈ (moveHandler dbWin alice 7 2).db.games,
        g'.id = (7 : Int).toNat → g'.chatId = none) ∧
      (∀ m ∈ (moveHandler dbWin alice 7 2).db.messages, m.chatId ≠ 3) ∧
      (∀ c ∈ (moveHandler dbWin alice 7 2).db.chats, c.id ≠ 3)) ∧
    getChatHandler dbFin alice 7 =
      ⟨deleteGameChat dbFin (some 3) (7 : Int).toNat, 403,
        some "El chat no está disponible para partidas terminadas", none⟩ := by
  have h := chat_teardown
  exact ⟨h.1 dbWin alice 7 2
      ⟨7, 1, 2, some 3, ['X', 'X', '-', 'O', 'O', 'X', 'O', 'X', 'O'], 'X',
        "ACTIVE", none⟩ 3
      (by unfold movePre; decide) (by decide) (Or.inl (by decide)),
    h.2 dbFin alice 7
      ⟨7, 1, 2, some 3, ['X', 'X', 'X', 'O', 'O', 'X', 'O', 'X', 'O'], 'X',
        "FINISHED", some 1⟩
      (by decide) (by decide) (by decide) (by decide)⟩

/-- C3 counterexample: in `dbCex3` a match between alice and bob already
exists, yet accepting the still-pending invitation succeeds and inserts a
second match — the game-invitation accept handler performs no re-check for an
existing derived Match before inserting. -/
theorem accept_no_recheck_cex :
    (acceptInvitationHandler dbCex3 bob 1).error = none ∧
    (dbCex3.games.filter fun g =>
        (g.playerXId == 1 && g.playerOId == 2) ||
          (g.playerXId == 2 && g.playerOId == 1)).length = 1 ∧
    ((acceptInvitationHandler dbCex3 bob 1).db.games.filter fun g =>
        (g.playerXId == 1 && g.playerOId == 2) ||
          (g.playerXId == 2 && g.playerOId == 1)).length = 2 := by
  decide

/-- C3 amended: friend-request acceptance re-checks for an existing
friendship in either direction before inserting and skips the insert when one
exists; game-invitation acceptance performs no such re-check for an existing
Match, but deletes the PENDING invitation row, so a second sequential accept
of the same invitation is rejected with 404 and changes nothing. -/
theorem accept_materializes_once :
    (∀ db caller (reqId : Int) newRowId fr,
      firstRow db.friendRequests (fun r =>
          r.id == reqId.toNat && r.receiverId == caller.id &&
            r.status == "PENDING") = some fr →
      friendRowsBetween db caller.id fr.senderId ≠ [] →
      (acceptFriendRequestHandler db caller reqId newRowId).db.friendships =
        db.friendships) ∧
    ∀ db caller (invId : Int),
      (acceptInvitationHandler db caller invId).error = none →
      acceptInvitationHandler (acceptInvitationHandler db caller invId).db
          caller invId =
        ⟨(acceptInvitationHandler db caller invId).db, 404,
          some "Invitación no encontrada o ya usada", []⟩ := by
  constructor
  · intro db caller reqId newRowId fr hrow hne
    have hlen : ¬ ((db.friendships.filter fun f =>
        (f.userId == caller.id && f.friendId == fr.senderId) ||
          (f.userId == fr.senderId && f.friendId == caller.id)).length = 0) := by
      intro h
      exact hne (List.length_eq_zero.1 h)
    simp only [acceptFriendRequestHandler, hrow, friendRowsBetween,
      if_neg hlen]
  · intro db caller invId herr
    by_cases h1 : invId < 1
    · exfalso
      simp [acceptInvitationHandler, h1] at herr
    cases hrow : firstRow db.gameInvitations (fun i =>
        i.id == invId.toNat && i.receiverId == caller.id &&
          i.status == "PENDING") with
    | none =>
      exfalso
      simp [acceptInvitationHandler, h1, hrow] at herr
    | some inv =>
      have hres : acceptInvitationHandler db caller invId =
          ⟨{ db with
              games := db.games ++
                [(⟨db.nextGameId, inv.senderId, inv.receiverId,
                  some db.nextChatId, INITIAL_BOARD, 'X', "ACTIVE",
                  none⟩ : Game)],
              chats := db.chats ++
                [(⟨db.nextChatId, inv.senderId, inv.receiverId⟩ : Chat)],
              gameInvitations :=
                db.gameInvitations.filter fun i => i.id != invId.toNat,
              nextChatId := db.nextChatId + 1,
              nextGameId := db.nextGameId + 1 },
            200, none, [⟨inv.senderId, "game_invitation_accepted", none⟩]⟩ := by
        simp only [acceptInvitationHandler, if_neg h1, hrow]
      rw [hres]
      have hlook : firstRow
          (db.gameInvitations.filter fun i => i.id != invId.toNat)
          (fun i => i.id == invId.toNat && i.receiverId == caller.id &&
            i.status == "PENDING") = none := by
        unfold firstRow
        rw [List.filter_filter]
        have hnil : db.gameInvitations.filter (fun a =>
            (a.id == invId.toNat && a.receiverId == caller.id &&
              a.status == "PENDING") && (a.id != invId.toNat)) = [] := by
          rw [List.filter_eq_nil_iff]
          intro a _
          by_cases ha : (a.id == invId.toNat) = true
          · simp [bne, ha]
          · simp [ha]
        rw [hnil]
        rfl
      simp only [acceptInvitationHandler, if_neg h1, hlook]

/-- C3 amended witness: in `dbAmend3` alice accepting bob's friend request
inserts no second friendship row, and bob accepting game invitation 1 twice
is rejected the second time with nothing changed. -/
theorem accept_materializes_once_witness :
    (acceptFriendRequestHandler dbAmend3 alice 5 99).db.friendships =
      dbAmend3.friendships ∧
    acceptInvitationHandler (acceptInvitationHandler dbAmend3 bob 1).db
        bob 1 =
      ⟨(acceptInvitationHandler dbAmend3 bob 1).db, 404,
        some "Invitación no encontrada o ya usada", []⟩ := by
  have h := accept_materializes_once
  exact ⟨h.1 dbAmend3 alice 5 99 ⟨5, 2, 1, "PENDING"⟩ (by decide) (by decide),
    h.2 dbAmend3 bob 1 (by decide)⟩

/-- C4 counterexample: in `dbCex4` there is no friendship row in either
direction between alice and bob, yet bob accepting the pending game
invitation is not rejected and a Match is created — the accept handler
enforces no friendship gate. -/
theorem accept_friend_gate_cex :
    dbCex4.friendships = [] ∧
    dbCex4.games.length = 0 ∧
    (acceptInvitationHandler dbCex4 bob 1).error = none ∧
    (acceptInvitationHandler dbCex4 bob 1).db.games.length = 1 := by
  decide

/-- C4 amended: the friendship gate applies to sending a game invitation, not
to accepting one: `POST /games/invite` between users with no friendship row
in either direction is rejected with reason code `NOT_FRIEND` and nothing is
created, while accepting an existing PENDING invitation never checks
friendship — it succeeds and creates the match whatever the friendship
table holds. -/
theorem invite_requires_friendship :
    (∀ db caller targetUsername target,
      jsTrim targetUsername ≠ "" →
      firstRow db.users (fun u => u.username == jsTrim targetUsername) =
        some target →
      target.id ≠ caller.id →
      friendRowsBetween db caller.id target.id = [] →
      inviteHandler db caller targetUsername =
        ⟨db, 403, some "Solo puedes invitar a jugar a tus amigos",
          some "NOT_FRIEND", []⟩) ∧
    ∀ db caller (invId : Int) inv,
      1 ≤ invId →
      firstRow db.gameInvitations (fun i =>
          i.id == invId.toNat && i.receiverId == caller.id &&
            i.status == "PENDING") = some inv →
      (acceptInvitationHandler db caller invId).error = none ∧
      (acceptInvitationHandler db caller invId).db.games.length =
        db.games.length + 1 := by
  constructor
  · intro db caller targetUsername target htrim hrow hne hfr
    simp only [inviteHandler, if_neg htrim, hrow, if_neg hne,
      if_pos (by simp [hfr] : (friendRowsBetween db caller.id target.id).length = 0)]
  · intro db caller invId inv h1 hrow
    simp only [acceptInvitationHandler, if_neg (by omega : ¬ invId < 1), hrow]
    exact ⟨trivial, by simp⟩

/-- C4 amended witness: in `dbCex4` alice inviting bob is rejected with
reason code `NOT_FRIEND` and nothing changes, while bob accepting the
already-pending invitation 1 succeeds and creates a match. -/
theorem invite_requires_friendship_witness :
    inviteHandler dbCex4 alice "bob" =
      ⟨dbCex4, 403, some "Solo puedes invitar a jugar a tus amigos",
        some "NOT_FRIEND", []⟩ ∧
    (acceptInvitationHandler dbCex4 bob 1).error = none ∧
    (acceptInvitationHandler dbCex4 bob 1).db.games.length =
      dbCex4.games.length + 1 := by
  have h := invite_requires_friendship
  exact ⟨h.1 dbCex4 alice "bob" bob (by decide) (by decide) (by decide)
      (by decide),
    h.2 dbCex4 bob 1 ⟨1, 1, 2, "PENDING"⟩ (by decide) (by decide)⟩

/-- C10: posting a chat message is rejected on a FINISHED or DRAW match, for
a non-participant, and for content blank after trimming, each time leaving
the database unchanged with no notification; otherwise the trimmed content
truncated to 2000 characters is appended to the match's chat (created lazily
when absent, with the game row re-pointed at it) and a `chat_message`
notification goes to both participants, `isMine = false` for the opponent and
`isMine = true` for the sender. -/
theorem post_message_spec :
    (∀ db caller (gameId : Int) content game,
      1 ≤ gameId → jsTrim content ≠ "" →
      firstRow db.games (fun g => g.id == gameId.toNat) = some game →
      (game.playerXId = caller.id ∨ game.playerOId = caller.id) →
      (game.status = "FINISHED" ∨ game.status = "DRAW") →
      postMessageHandler db caller gameId content =
        ⟨db, 403,
          some "El chat no está disponible para partidas terminadas", []⟩) ∧
    (∀ db caller (gameId : Int) content game,
      1 ≤ gameId → jsTrim content ≠ "" →
      firstRow db.games (fun g => g.id == gameId.toNat) = some game →
      ¬ (game.playerXId = caller.id ∨ game.playerOId = caller.id) →
      postMessageHandler db caller gameId content =
        ⟨db, 403, some "No participas en esta partida", []⟩) ∧
    (∀ db caller (gameId : Int) content,
      1 ≤ gameId → jsTrim content = "" →
      postMessageHandler db caller gameId content =
        ⟨db, 400, some "Mensaje vacío", []⟩) ∧
    ∀ db caller (gameId : Int) content game,
      1 ≤ gameId → jsTrim content ≠ "" →
      firstRow db.games (fun g => g.id == gameId.toNat) = some game →
      (game.playerXId = caller.id ∨ game.playerOId = caller.id) →
      game.status = "ACTIVE" →
      (postMessageHandler db caller gameId content).db.messages =
        (ensureChat db game gameId.toNat).1.messages ++
          [⟨(ensureChat db game gameId.toNat).1.nextMessageId,
            (ensureChat db game gameId.toNat).2, caller.id,
            jsSlice (jsTrim content) 2000⟩] ∧
      (postMessageHandler db caller gameId content).notifications =
        [⟨if game.playerXId = caller.id then game.playerOId else game.playerXId,
          "chat_message", some false⟩,
          ⟨caller.id, "chat_message", some true⟩] ∧
      (postMessageHandler db caller gameId content).error = none ∧
      (game.chatId = none →
        (ensureChat db game gameId.toNat).1.chats =
          db.chats ++ [⟨db.nextChatId, game.playerXId, game.playerOId⟩] ∧
        ∀ g' ∈ (postMessageHandler db caller gameId content).db.games,
          g'.id = gameId.toNat → g'.chatId = some db.nextChatId) := by
  refine ⟨?_, ?_, ?_, ?_⟩
  · intro db caller gameId content game h1 htrim hrow hpart hterm
    simp only [postMessageHandler, if_neg (by omega : ¬ gameId < 1),
      if_neg htrim, hrow, if_neg (not_not_intro hpart), if_pos hterm]
  · intro db caller gameId content game h1 htrim hrow hnp
    simp only [postMessageHandler, if_neg (by omega : ¬ gameId < 1),
      if_neg htrim, hrow, if_pos hnp]
  · intro db caller gameId content h1 htrim
    simp only [postMessageHandler, if_neg (by omega : ¬ gameId < 1),
      if_pos htrim]
  · intro db caller gameId content game h1 htrim hrow hpart hstat
    have hterm : ¬ (game.status = "FINISHED" ∨ game.status = "DRAW") := by
      simp [hstat]
    simp only [postMessageHandler, if_neg (by omega : ¬ gameId < 1),
      if_neg htrim, hrow, if_neg (not_not_intro hpart), if_neg hterm]
    refine ⟨trivial, trivial, trivial, ?_⟩
    intro hchat
    constructor
    · simp only [ensureChat, hchat]
    · intro g' hmem hid
      simp only [ensureChat, hchat] at hmem
      obtain ⟨g0, hg0, rfl⟩ := List.mem_map.1 hmem
      by_cases h0 : (g0.id == gameId.toNat) = true
      · rw [if_pos h0]
      · rw [if_neg h0] at hid
        exact absurd (by simp [hid]) h0

/-- C10 witness: alice posting `" hola "` on the chatless ACTIVE match 10 of
`dbCex3` creates chat 1, stores the trimmed message, and notifies bob with
`isMine = false` and alice with `isMine = true`. -/
theorem post_message_spec_witness :
    (postMessageHandler dbCex3 alice 10 " hola ").db.messages =
      [⟨1, 1, 1, "hola"⟩] ∧
    (postMessageHandler dbCex3 alice 10 " hola ").notifications =
      [⟨2, "chat_message", some false⟩, ⟨1, "chat_message", some true⟩] ∧
    (postMessageHandler dbCex3 alice 10 " hola ").error = none ∧
    (postMessageHandler dbCex3 alice 10 " hola ").db.chats =
      dbCex3.chats ++ [⟨1, 1, 2⟩] ∧
    ∀ g' ∈ (postMessageHandler dbCex3 alice 10 " hola ").db.games,
      g'.id = (10 : Int).toNat → g'.chatId = some 1 := by
  have h := post_message_spec.2.2.2 dbCex3 alice 10 " hola "
    ⟨10, 1, 2, none, INITIAL_BOARD, 'X', "ACTIVE", none⟩
    (by decide) (by decide) (by decide) (by decide) (by decide)
  obtain ⟨hm, hn, he, hlazy⟩ := h
  obtain ⟨hc, hg⟩ := hlazy rfl
  exact ⟨hm, hn, he, hc, hg⟩


/-- Looking a user up in a registry from which all of that user's entries
were filtered out finds nothing. -/
theorem regFind_filter_ne (r : Registry) (u : Nat) :
    regFind (r.filter fun e => e.1 != u) u = none := by
  induction r with
  | nil => rfl
  | cons a t ih =>
    by_cases ha : (a.1 == u) = true
    · have hb : (a.1 != u) = false := by simp [bne, ha]
      simp only [List.filter_cons, hb, Bool.false_eq_true, if_false]
      exact ih
    · have ha' : (a.1 == u) = false := by simpa using ha
      have hb : (a.1 != u) = true := by simp [bne, ha']
      simp only [List.filter_cons, hb, if_true]
      unfold regFind
      rw [List.find?_cons]
      simp only [ha']
      exact ih

theorem regFind_setEntry (r : Registry) (u : Nat) (l set : List Socket)
    (h : regFind r u = some set) : regFind (setEntry r u l) u = some l := by
  induction r with
  | nil => cases h
  | cons a t ih =>
    by_cases ha : (a.1 == u) = true
    · simp only [setEntry, List.map_cons, ha, if_true]
      unfold regFind
      rw [List.find?_cons]
      simp
    · have ha' : (a.1 == u) = false := by simpa using ha
      simp only [setEntry, List.map_cons, ha', Bool.false_eq_true, if_false]
      unfold regFind at h ⊢
      rw [List.find?_cons] at h ⊢
      simp only [ha'] at h ⊢
      exact ih h

theorem regFind_append_none (r r' : Registry) (u : Nat)
    (h : regFind r u = none) : regFind (r ++ r') u = regFind r' u := by
  induction r with
  | nil => rfl
  | cons a t ih =>
    unfold regFind at h ⊢
    rw [List.cons_append, List.find?_cons]
    rw [List.find?_cons] at h
    by_cases ha : (a.1 == u) = true
    · simp only [ha] at h
      cases h
    · have ha' : (a.1 == u) = false := by simpa using ha
      simp only [ha'] at h ⊢
      exact ih h

theorem mem_setEntry {r : Registry} {u : Nat} {l : List Socket}
    {e : Nat × List Socket} (h : e ∈ setEntry r u l) : e ∈ r ∨ e = (u, l) := by
  unfold setEntry at h
  obtain ⟨a, ha, rfl⟩ := List.mem_map.1 h
  by_cases hc : (a.1 == u) = true
  · rw [if_pos hc]
    right
    rfl
  · rw [if_neg hc]
    left
    exact ha

/-- C9: deregistration is idempotent, deregistering an absent connection (or
one for an unknown user) changes nothing, deregistering a user's last
connection drops the user's registry entry, and register and deregister both
preserve the invariant that no entry holds an empty set — the registry's key
set always stays within the users having at least one live connection. -/
theorem deregister_idempotent :
    (∀ r u s, deregister (deregister r u s) u s = deregister r u s) ∧
    (∀ r u s, regFind r u = none → deregister r u s = r) ∧
    (∀ r u s set, regFind r u = some set → s ∉ set → deregister r u s = r) ∧
    (∀ r u s, regFind r u = some [s] →
      regFind (deregister r u s) u = none) ∧
    (∀ r u s, regNoEmpty r → regNoEmpty (register r u s)) ∧
    (∀ r u s, regNoEmpty r → regNoEmpty (deregister r u s)) := by
  refine ⟨?_, ?_, ?_, ?_, ?_, ?_⟩
  · intro r u s
    cases hf : regFind r u with
    | none =>
      have h1 : deregister r u s = r := by simp only [deregister, hf]
      rw [h1]
      exact h1
    | some set =>
      by_cases hs : set.contains s = true
      · by_cases hlen : (set.filter fun x => x != s).length = 0
        · have h1 : deregister r u s = r.filter fun e => e.1 != u := by
            simp only [deregister, hf, if_neg (not_not_intro hs), if_pos hlen]
          have h2 : deregister (r.filter fun e => e.1 != u) u s =
              r.filter fun e => e.1 != u := by
            simp only [deregister, regFind_filter_ne]
          rw [h1]
          exact h2
        · have h1 : deregister r u s =
              setEntry r u (set.filter fun x => x != s) := by
            simp only [deregister, hf, if_neg (not_not_intro hs), if_neg hlen]
          have hf2 : regFind (setEntry r u (set.filter fun x => x != s)) u =
              some (set.filter fun x => x != s) :=
            regFind_setEntry r u _ set hf
          have hc2 : ¬ ((set.filter fun x => x != s).contains s = true) := by
            intro hcon
            simp at hcon
          have h2 : deregister (setEntry r u (set.filter fun x => x != s)) u s =
              setEntry r u (set.filter fun x => x != s) := by
            simp only [deregister, hf2, if_pos hc2]
          rw [h1]
          exact h2
      · have h1 : deregister r u s = r := by
          simp only [deregister, hf, if_pos hs]
        rw [h1]
        exact h1
  · intro r u s h
    simp only [deregister, h]
  · intro r u s set h hns
    have hs : ¬ (set.contains s = true) := by
      intro hcon
      exact hns (by simpa using hcon)
    simp only [deregister, h, if_pos hs]
  · intro r u s h
    have hcon : ¬ ¬ (([s] : List Socket).contains s = true) :=
      not_not_intro (by simp)
    have hlen : (([s] : List Socket).filter fun x => x != s).length = 0 := by
      simp
    have h1 : deregister r u s = r.filter fun e => e.1 != u := by
      simp only [deregister, h, if_neg hcon, if_pos hlen]
    rw [h1, regFind_filter_ne]
  · intro r u s hno
    unfold register
    cases hf : regFind r u with
    | none =>
      intro e he
      rcases List.mem_append.1 he with h | h
      · exact hno e h
      · simp only [List.mem_singleton] at h
        subst h
        simp
    | some set =>
      intro e he
      rcases mem_setEntry he with h | h
      · exact hno e h
      · subst h
        by_cases hc : set.contains s = true
        · rw [if_pos hc]
          exact List.ne_nil_of_mem (by simpa using hc)
        · rw [if_neg hc]
          simp
  · intro r u s hno
    cases hf : regFind r u with
    | none =>
      have h1 : deregister r u s = r := by simp only [deregister, hf]
      rw [h1]
      exact hno
    | some set =>
      by_cases hs : set.contains s = true
      · by_cases hlen : (set.filter fun x => x != s).length = 0
        · have h1 : deregister r u s = r.filter fun e => e.1 != u := by
            simp only [deregister, hf, if_neg (not_not_intro hs), if_pos hlen]
          rw [h1]
          intro e he
          exact hno e (List.mem_filter.1 he).1
        · have h1 : deregister r u s =
              setEntry r u (set.filter fun x => x != s) := by
            simp only [deregister, hf, if_neg (not_not_intro hs), if_neg hlen]
          rw [h1]
          intro e he
          rcases mem_setEntry he with h | h
          · exact hno e h
          · subst h
            intro hnil
            apply hlen
            have hfil : (List.filter (fun x => x != s) set) = [] := hnil
            rw [hfil]
            rfl
      · have h1 : deregister r u s = r := by
          simp only [deregister, hf, if_pos hs]
        rw [h1]
        exact hno

/-- C9 witness: in `regSample`, deregistering `sockOpen` for user 5 twice
equals doing it once, deregistering a socket of the unknown user 9 changes
nothing, and the no-empty-entry invariant survives a deregistration. -/
theorem deregister_idempotent_witness :
    deregister (deregister regSample 5 sockOpen) 5 sockOpen =
      deregister regSample 5 sockOpen ∧
    deregister regSample 9 sockOpen = regSample ∧
    regNoEmpty (deregister regSample 5 sockOpen) := by
  have h := deregister_idempotent
  refine ⟨h.1 regSample 5 sockOpen, h.2.1 regSample 9 sockOpen (by decide), ?_⟩
  exact h.2.2.2.2.2 regSample 5 sockOpen
    (by unfold regNoEmpty; decide)

/-- The send loop of `notifyUser` writes to exactly the open sockets, in
order, each receiving the same payload. -/
theorem notify_foldl (l : List Socket) (p : String × String)
    (acc : List (Socket × (String × String))) :
    l.foldl (fun acc ws =>
        if ws.readyState = 1 then acc ++ [(ws, p)] else acc) acc =
      acc ++ (l.filter fun ws => ws.readyState == 1).map fun ws => (ws, p) := by
  induction l generalizing acc with
  | nil => simp
  | cons a t ih =>
    rw [List.foldl_cons, List.filter_cons]
    by_cases ha : a.readyState = 1
    · simp [ha, ih]
    · simp [ha, ih]

/-- C8: `notifyUser` for a user with no registry entry writes nothing and
does not fail; for a registered user it writes the once-serialized
`(event, data)` payload to exactly those connections whose transport ready
state is open (`1`), skipping the others without failing. -/
theorem notify_reaches_open :
    (∀ r u event data, regFind r u = none → notifyUser r u event data = []) ∧
    ∀ r u event data set, regFind r u = some set →
      notifyUser r u event data =
        (set.filter fun ws => ws.readyState == 1).map fun ws =>
          (ws, (event, data)) := by
  constructor
  · intro r u e d h
    simp only [notifyUser, h]
  · intro r u e d set h
    simp only [notifyUser, h]
    by_cases hlen : set.length = 0
    · rw [if_pos hlen]
      have hnil : set = [] := List.length_eq_zero.1 hlen
      subst hnil
      rfl
    · rw [if_neg hlen]
      simpa using notify_foldl set (e, d) []

/-- C8 witness: notifying the unknown user 9 in `regSample` writes nothing,
and notifying user 5 reaches exactly the open socket with the serialized
payload, skipping the stale one. -/
theorem notify_reaches_open_witness :
    notifyUser regSample 9 "game_move" "d" = [] ∧
    notifyUser regSample 5 "game_move" "d" =
      [(sockOpen, ("game_move", "d"))] := by
  have h := notify_reaches_open
  refine ⟨h.1 regSample 9 "game_move" "d" (by decide), ?_⟩
  have h2 := h.2 regSample 5 "game_move" "d" [sockOpen, sockStale] (by decide)
  rw [h2]
  decide

/-- Registering a socket and then running the attached removal action leaves
no registration of that socket for the user. -/
theorem register_deregister_not_mem (r : Registry) (u : Nat) (s : Socket) :
    ∀ set, regFind (deregister (register r u s) u s) u = some set →
      s ∉ set := by
  intro set hfind
  cases hf : regFind r u with
  | none =>
    have hreg : register r u s = r ++ [(u, [s])] := by simp only [register, hf]
    have hf1 : regFind (r ++ [(u, [s])]) u = some [s] := by
      rw [regFind_append_none r _ u hf]
      unfold regFind
      rw [List.find?_cons]
      simp
    have hcon : ¬ ¬ (([s] : List Socket).contains s = true) :=
      not_not_intro (by simp)
    have hlen : (([s] : List Socket).filter fun x => x != s).length = 0 := by
      simp
    have hd : deregister (r ++ [(u, [s])]) u s =
        (r ++ [(u, [s])]).filter fun e => e.1 != u := by
      simp only [deregister, hf1, if_neg hcon, if_pos hlen]
    rw [hreg, hd, regFind_filter_ne] at hfind
    cases hfind
  | some set0 =>
    have hreg : register r u s =
        setEntry r u (if set0.contains s then set0 else set0 ++ [s]) := by
      simp only [register, hf]
    have hsmem : s ∈ (if set0.contains s then set0 else set0 ++ [s]) := by
      by_cases hc : set0.contains s = true
      · rw [if_pos hc]
        simpa using hc
      · rw [if_neg hc]
        exact List.mem_append.2 (Or.inr (by simp))
    have hf1 : regFind (register r u s) u =
        some (if set0.contains s then set0 else set0 ++ [s]) := by
      rw [hreg]
      exact regFind_setEntry r u _ set0 hf
    have hcon : ¬ ¬ ((if set0.contains s then set0 else
        set0 ++ [s]).contains s = true) :=
      not_not_intro (by simpa using hsmem)
    by_cases hlen : ((if set0.contains s then set0 else
        set0 ++ [s]).filter fun x => x != s).length = 0
    · have hd : deregister (register r u s) u s =
          (register r u s).filter fun e => e.1 != u := by
        simp only [deregister, hf1, if_neg hcon, if_pos hlen]
      rw [hd, regFind_filter_ne] at hfind
      cases hfind
    · have hd : deregister (register r u s) u s =
          setEntry (register r u s) u
            ((if set0.contains s then set0 else
              set0 ++ [s]).filter fun x => x != s) := by
        simp only [deregister, hf1, if_neg hcon, if_neg hlen]
      rw [hd, regFind_setEntry _ u _ _ hf1] at hfind
      injection hfind with hinj
      subst hinj
      intro hmem
      have := (List.mem_filter.1 hmem).2
      simp at this

/-- C7: a `GET /ws` connection whose token is missing or empty, fails
verification, or decodes to a payload without an id, is closed with nothing
sent and nothing registered and the registry untouched; a token verifying to
user `uid` registers the socket under `uid` with close and error handlers
attached whose action — `deregister` — removes the registration. -/
theorem ws_handshake :
    (∀ r verify s, wsHandler r verify none s = ⟨r, true, none, [], []⟩) ∧
    (∀ r verify s, wsHandler r verify (some "") s = ⟨r, true, none, [], []⟩) ∧
    (∀ r verify t s, t ≠ "" → verify t = none →
      wsHandler r verify (some t) s = ⟨r, true, none, [], []⟩) ∧
    (∀ r verify t s, t ≠ "" → verify t = some none →
      wsHandler r verify (some t) s = ⟨r, true, none, [], []⟩) ∧
    ∀ r verify t s uid, t ≠ "" → verify t = some (some uid) →
      wsHandler r verify (some t) s =
        ⟨register r uid s, false, some uid,
          [("close", uid, s), ("error", uid, s)], []⟩ ∧
      ∀ set, regFind (deregister (register r uid s) uid s) uid = some set →
        s ∉ set := by
  refine ⟨?_, ?_, ?_, ?_, ?_⟩
  · intro r verify s
    rfl
  · intro r verify s
    simp [wsHandler]
  · intro r verify t s ht hv
    simp only [wsHandler, if_neg ht, hv]
  · intro r verify t s ht hv
    simp only [wsHandler, if_neg ht, hv]
  · intro r verify t s uid ht hv
    refine ⟨?_, register_deregister_not_mem r uid s⟩
    simp only [wsHandler, if_neg ht, hv]

/-- C7 witness: with `verifySample`, a missing token, the failing token
`"bad"` and the id-less token `"noid"` each close the connection with the
registry untouched, while `"good"` registers `sockOpen` under user 5 with
close and error handlers whose deregistration removes it. -/
theorem ws_handshake_witness :
    wsHandler regSample verifySample none sockOpen =
      ⟨regSample, true, none, [], []⟩ ∧
    wsHandler regSample verifySample (some "bad") sockOpen =
      ⟨regSample, true, none, [], []⟩ ∧
    wsHandler regSample verifySample (some "noid") sockOpen =
      ⟨regSample, true, none, [], []⟩ ∧
    wsHandler regSample verifySample (some "good") sockOpen =
      ⟨register regSample 5 sockOpen, false, some 5,
        [("close", 5, sockOpen), ("error", 5, sockOpen)], []⟩ ∧
    ∀ set, regFind (deregister (register regSample 5 sockOpen) 5 sockOpen) 5 =
        some set → sockOpen ∉ set := by
  have h := ws_handshake
  have h5 := h.2.2.2.2 regSample verifySample "good" sockOpen 5 (by decide)
    (by decide)
  exact ⟨h.1 regSample verifySample sockOpen,
    h.2.2.1 regSample verifySample "bad" sockOpen (by decide) (by decide),
    h.2.2.2.1 regSample verifySample "noid" sockOpen (by decide) (by decide),
    h5.1, h5.2⟩
